import Mathlib

/-!
Shallow embedding of the typit-matrix bot (src/main.rs, src/message.rs).

The bot listens for Matrix room messages, recognises a `,typ` command
prefix, pipes the command through the `typst` compiler subprocess under a
25-second deadline, and replies with either a rendered image, a formatted
compiler error, an instructional text, or a timeout notice.  Effects
(process spawning, pipe I/O, media upload, message sending) are modelled
by explicit outcome values supplied through a `RenderEnv` oracle record;
`.unwrap()` panics in the Rust source are modelled by the
`HandlerResult.panicked` outcome.  Rust byte buffers holding diagnostic
text are modelled at the text level as `List Char`.
-/

namespace TypitMatrix

/-- Room membership state for the bot, mirroring `matrix_sdk::RoomState`
as used by the `room.state() != RoomState::Joined` gate (message.rs:32). -/
inductive RoomState where
  | joined
  | left
  | invited
  | knocked
deriving DecidableEq

/-- The part of `MessageType` inspected by the handler (message.rs:44):
only the `Text` variant (with its raw body) is processed, everything
else is ignored. -/
inductive MessageType where
  | text (body : List Char)
  | other
deriving DecidableEq

/-- Reply payload variants actually constructed by the handler:
plain text (`text_plain`, message.rs:53, 82), formatted error
(`text_html`, message.rs:103) and image (message.rs:115-118). -/
inductive ReplyMsg where
  | textPlain (body : List Char)
  | textHtml (body : List Char) (html : List Char)
  | image (uri : List Char) (width height : Nat)
deriving DecidableEq

/-- Sites of the `.unwrap()` calls in `on_room_message`: a failure at one
of these aborts (panics) that single handler invocation. -/
inductive PanicSite where
  | timestamp
  | spawn
  | stdinWrite
  | stderrRead
  | wait
  | imageDecode
  | upload
  | send
deriving DecidableEq

/-- Result of one `on_room_message` invocation: silently ignored, one
reply sent (`make_reply_to(event, ForwardThread::Yes, AddMentions::Yes)`
records `threaded` and `mentions`), or aborted by a failed unwrap. -/
inductive HandlerResult where
  | noReply
  | sent (msg : ReplyMsg) (threaded mentions : Bool)
  | panicked (site : PanicSite)
deriving DecidableEq

/-- Observable outcome of one handler invocation: the result plus the
payload written (by `write_all`, message.rs:68-71) to the compiler
subprocess standard input, when the spawn was reached and succeeded. -/
structure HandlerOutcome where
  result : HandlerResult
  stdinPayload : Option (List Char)
deriving DecidableEq

/-- Oracle for the effectful steps of one render job: whether each
fallible call succeeds, the bytes (as text) collected from the
subprocess pipes, the exit status, the image decode result and the
media-upload result. -/
structure RenderEnv where
  spawnOk : Bool
  stdinWriteOk : Bool
  timedOut : Bool
  stdoutText : List Char
  stderrReadOk : Bool
  stderrText : List Char
  waitOk : Bool
  exitSuccess : Bool
  imageDecode : Option (Nat × Nat)
  uploadUri : Option (List Char)
  sendOk : Bool
deriving DecidableEq

/-- The command gate (message.rs:48): `body.strip_prefix(",typ")` — the
four characters `,typ` are matched as a raw prefix, no separator
required, and the remainder is the command text. -/
def stripTyp : List Char → Option (List Char)
  | ',' :: 't' :: 'y' :: 'p' :: rest => some rest
  | _ => none

/-- `content.trim().is_empty()` (message.rs:52): true iff every
character is whitespace. -/
def isBlank (s : List Char) : Bool := s.all (fun c => c.isWhitespace)

/-- The `PREAMBLE` raw string constant (message.rs:22-27). -/
def preamble_text : List Char :=
  "\n#import \"@preview/catppuccin:1.0.0\": catppuccin, flavors;\n#show: catppuccin.with(flavors.mocha);\n#set page(height: auto, width: auto, margin: 28pt);\n#set text(size: 44pt);\n".toList

/-- The payload written to the compiler stdin:
`format!("{PREAMBLE}\n{content}")` (message.rs:69). -/
def render_input (content : List Char) : List Char :=
  preamble_text ++ Char.ofNat 10 :: content

/-- Per-character escaping performed by `html_escape::encode_safe`
(external crate, message.rs:100): the five safe-context characters are
replaced by their entities, all other characters pass through. -/
def escapeChar (c : Char) : List Char :=
  if c = '&' then "&amp;".toList
  else if c = '<' then "&lt;".toList
  else if c = '>' then "&gt;".toList
  else if c = '"' then "&quot;".toList
  else if c = Char.ofNat 39 then "&#x27;".toList
  else [c]

/-- `html_escape::encode_safe` over a whole text, character by
character. -/
def encodeSafe : List Char → List Char
  | [] => []
  | c :: cs => escapeChar c ++ encodeSafe cs

/-- Opening of the monospace wrapper built at message.rs:98-101. -/
def pre_open : List Char := "<pre><code class=\"language-typst\">".toList

/-- Closing of the monospace wrapper built at message.rs:98-101. -/
def pre_close : List Char := "</code></pre>".toList

/-- The fixed instructional reply text (message.rs:53). -/
def need_text : List Char := "<text> is needed to typeset".toList

/-- The fixed timeout reply text (message.rs:82). -/
def timeout_text : List Char := "Your code took too long (>10s) to render".toList

/-- A `room.send(...).await.unwrap()` call (message.rs:81-86, 128):
sends the reply threaded with mentions on success, panics on failure. -/
def sendReply (env : RenderEnv) (m : ReplyMsg) : HandlerResult :=
  if env.sendOk then HandlerResult.sent m true true
  else HandlerResult.panicked PanicSite.send

/-- Model of `on_room_message` (message.rs:30-129).  `ageMs` is the
duration (in whole milliseconds) returned by
`SystemTime::now().duration_since(origin_server_ts)`; `none` models the
case where that call fails (origin timestamp in the future, or
`to_system_time()` overflow), in which case the handler's `.unwrap()`
panics.  The gate order mirrors the source: room state, freshness,
message type, command prefix, blank remainder, then the render job. -/
def on_room_message (state : RoomState) (ageMs : Option Nat) (msg : MessageType)
    (env : RenderEnv) : HandlerOutcome :=
  if state ≠ RoomState.joined then ⟨HandlerResult.noReply, none⟩
  else
    match ageMs with
    | none => ⟨HandlerResult.panicked PanicSite.timestamp, none⟩
    | some ms =>
      if 5000 ≤ ms then ⟨HandlerResult.noReply, none⟩
      else
        match msg with
        | MessageType.other => ⟨HandlerResult.noReply, none⟩
        | MessageType.text body =>
          match stripTyp body with
          | none => ⟨HandlerResult.noReply, none⟩
          | some content =>
            if isBlank content then
              ⟨sendReply env (ReplyMsg.textPlain need_text), none⟩
            else if env.spawnOk = false then
              ⟨HandlerResult.panicked PanicSite.spawn, none⟩
            else
              let payload := render_input content
              if env.stdinWriteOk = false then
                ⟨HandlerResult.panicked PanicSite.stdinWrite, some payload⟩
              else if env.timedOut then
                ⟨sendReply env (ReplyMsg.textPlain timeout_text), some payload⟩
              else if env.stderrReadOk = false then
                ⟨HandlerResult.panicked PanicSite.stderrRead, some payload⟩
              else if env.waitOk = false then
                ⟨HandlerResult.panicked PanicSite.wait, some payload⟩
              else
                let buf := env.stdoutText ++ env.stderrText
                if env.exitSuccess = false then
                  ⟨sendReply env
                      (ReplyMsg.textHtml buf (pre_open ++ encodeSafe buf ++ pre_close)),
                    some payload⟩
                else
                  match env.imageDecode with
                  | none => ⟨HandlerResult.panicked PanicSite.imageDecode, some payload⟩
                  | some wh =>
                    match env.uploadUri with
                    | none => ⟨HandlerResult.panicked PanicSite.upload, some payload⟩
                    | some uri =>
                      ⟨sendReply env (ReplyMsg.image uri wh.1 wh.2), some payload⟩

/-- The persisted session record (main.rs:22-28): the opaque Matrix user
session (credentials) and the optional latest sync token.  The
credentials blob is opaque to this program, modelled as a `String`. -/
structure FullSession where
  user_session : String
  sync_token : Option String
deriving DecidableEq

/-- Failure modes of `persist_sync_token`: the `fs::read_to_string` or
`serde_json::from_str` step failed (main.rs:186-187), or the final
`fs::write` failed (main.rs:191). -/
inductive PersistError where
  | readOrParse
  | write
deriving DecidableEq

/-- Model of `persist_sync_token` (main.rs:185-194).  The durable file
is modelled at the record level: `none` stands for a file that cannot be
read or whose contents fail to parse as a `FullSession` (either makes
the `?` propagate an error); serialization and deserialization of the
record are inverse and abstracted as the identity.  `writeOk` models
whether the final `fs::write` succeeds.  On success the new file state
is returned: the record with only `sync_token` replaced. -/
def persist_sync_token (file : Option FullSession) (writeOk : Bool) (tok : String) :
    Except PersistError (Option FullSession) :=
  match file with
  | none => Except.error PersistError.readOrParse
  | some fs =>
    if writeOk then Except.ok (some { fs with sync_token := some tok })
    else Except.error PersistError.write

/-- One long-poll attempt's result as seen by the streaming-loop
callback (main.rs:170-179): a successful response carrying the
`next_batch` token, or a sync error. -/
inductive SyncAttempt where
  | ok (next_batch : String)
  | err
deriving DecidableEq

/-- Errors that abort the streaming sync loop: a sync error propagated
by `let response = sync_result?` (main.rs:171), or a persistence error
wrapped by `Error::UnknownError` (main.rs:174-176). -/
inductive SyncError where
  | fromSync
  | persist (e : PersistError)
deriving DecidableEq

/-- Model of the streaming loop `sync_with_result_callback`
(main.rs:169-180).  Each element of the input list is one long-poll
attempt paired with the outcomes of the event handlers the SDK
dispatched for that response's events.  Modelled from the spec: handler
dispatch (spec §5, the SDK's dispatch machinery is external to src/)
runs each handler as an independent concurrent task, so a batch's
handler outcomes are carried along but — exactly as in the callback
code, which only persists the token — never feed back into the loop.
The callback aborts the loop by returning an error on a sync error or a
persistence failure, and otherwise continues (`LoopCtrl::Continue`)
with the updated file state. -/
def sync_loop (file : Option FullSession) (writeOk : String → Bool) :
    List (SyncAttempt × List HandlerResult) → Except SyncError (Option FullSession)
  | [] => Except.ok file
  | (SyncAttempt.err, _) :: _ => Except.error SyncError.fromSync
  | (SyncAttempt.ok tok, _) :: rest =>
    match persist_sync_token file (writeOk tok) tok with
    | Except.error e => Except.error (SyncError.persist e)
    | Except.ok f2 => sync_loop f2 writeOk rest

/-- The error variants of `matrix_sdk::ClientBuildError` distinguished
by `build_client` (main.rs:115-127). -/
inductive ClientBuildError where
  | autoDiscovery
  | url
  | http
  | other
deriving DecidableEq

/-- Outcome of `build_client` (main.rs:107-130): a built client, an
explicit `std::process::exit(1)` after two diagnostic `println!` lines,
or an error forwarded to the caller. -/
inductive BuildClientOutcome where
  | client
  | exited (code : Nat) (diagnostic : Bool)
  | propagated (e : ClientBuildError)
deriving DecidableEq

/-- Model of `build_client` (main.rs:107-130): `AutoDiscovery`, `Url`
and `Http` builder errors print a diagnostic and exit the process with
code 1; other errors are returned to the caller. -/
def build_client (r : Except ClientBuildError Unit) : BuildClientOutcome :=
  match r with
  | Except.ok _ => BuildClientOutcome.client
  | Except.error e =>
    match e with
    | ClientBuildError.autoDiscovery => BuildClientOutcome.exited 1 true
    | ClientBuildError.url => BuildClientOutcome.exited 1 true
    | ClientBuildError.http => BuildClientOutcome.exited 1 true
    | ClientBuildError.other => BuildClientOutcome.propagated e

/-- Whether the process is still running (entered the sync loop) or has
exited, and whether a diagnostic message was printed before exiting. -/
inductive ProcessOutcome where
  | running
  | exited (code : Nat) (diagnostic : Bool)
deriving DecidableEq

/-- Model of the startup path of `main` (main.rs:35-39) up to the point
where the client is built.  If the session file exists, `restore_session`
(main.rs:44-70) builds the client directly and a builder error
propagates via `?` out of `main`; a `main` returning `Err` under Rust's
`Termination` impl prints the error as a diagnostic and exits the
process with code 1.  Otherwise `login` (main.rs:72-104) calls
`build_client`, which exits with code 1 itself on address/URL errors
and forwards other errors, which then propagate out of `main` the same
way.  `rest` is the behaviour of the remainder of the program when the
client is built successfully. -/
def main_startup (sessionExists : Bool) (build : Except ClientBuildError Unit)
    (rest : ProcessOutcome) : ProcessOutcome :=
  if sessionExists then
    match build with
    | Except.error _ => ProcessOutcome.exited 1 true
    | Except.ok _ => rest
  else
    match build_client build with
    | BuildClientOutcome.exited c d => ProcessOutcome.exited c d
    | BuildClientOutcome.propagated _ => ProcessOutcome.exited 1 true
    | BuildClientOutcome.client => rest

/-- Membership states carried by a room member event
(`ruma` `MembershipState`, abridged). -/
inductive Membership where
  | invite
  | join
  | leave
  | ban
  | knock
deriving DecidableEq

/-- The fields of `StrippedRoomMemberEvent` relevant to
`on_stripped_member` (main.rs:196-214): the target user (`state_key`)
and the new membership state carried by the event content.  The source
reads only `state_key`. -/
structure StrippedRoomMemberEvent where
  state_key : String
  membership : Membership
deriving DecidableEq

/-- Model of the dispatch gate of `on_stripped_member` (main.rs:196-200):
returns whether the join retry task is spawned (`tokio::spawn`,
main.rs:201).  The source compares only `state_key` against the bot's
own user id; the event's membership state is not inspected. -/
def on_stripped_member (ev : StrippedRoomMemberEvent) (own_user_id : String) : Bool :=
  if ev.state_key ≠ own_user_id then false else true

/-- The sequence of sleeps performed by the spawned join-retry task
(main.rs:201-213) under permanent join failure, starting from the given
`delay`, with explicit fuel.  One iteration of the `while let Err`
loop: sleep for `delay` seconds, double the delay, and if the doubled
delay has reached 3600 report the failure (`eprintln!`) and stop —
`some l` means the loop terminated at that report with `l` the list of
slept delays, in order; `none` means the fuel ran out first. -/
def join_retry_sleeps (fuel : Nat) (delay : Nat) : Option (List Nat) :=
  match fuel with
  | 0 => none
  | k + 1 =>
    if 3600 ≤ delay * 2 then some [delay]
    else
      match join_retry_sleeps k (delay * 2) with
      | none => none
      | some l => some (delay :: l)

/-- `a` occurs contiguously (as an infix) inside `b`. -/
def occursIn (a b : List Char) : Prop := ∃ s t, b = s ++ a ++ t

/-- Claim C1, counterexample: on the timeout path the reply text the code
actually sends is `"Your code took too long (>10s) to render"`, which is
not the claimed string `"Your code took too long to render"`. -/
theorem c1_counterexample :
    (on_room_message RoomState.joined (some 0) (MessageType.text (",typ x".toList))
        { spawnOk := true, stdinWriteOk := true, timedOut := true, stdoutText := [],
          stderrReadOk := true, stderrText := [], waitOk := true, exitSuccess := true,
          imageDecode := none, uploadUri := none, sendOk := true }).result
      = HandlerResult.sent (ReplyMsg.textPlain timeout_text) true true
    ∧ timeout_text ≠ "Your code took too long to render".toList := by
  exact ⟨by decide, by decide⟩

/-- Claim C1 (amended): for every qualifying text-message command whose
compiler subprocess output is not fully read within the 25-second
deadline, the render pipeline sends exactly one reply, threaded to the
triggering message with mentions, whose text is exactly the fixed
timeout message `"Your code took too long (>10s) to render"`, and no
image or error reply is additionally sent for that message. -/
theorem c1_timeout_reply (ms : Nat) (body content : List Char) (env : RenderEnv)
    (hms : ms < 5000) (hcmd : stripTyp body = some content) (hnb : isBlank content = false)
    (hspawn : env.spawnOk = true) (hwrite : env.stdinWriteOk = true)
    (htime : env.timedOut = true) (hsend : env.sendOk = true) :
    (on_room_message RoomState.joined (some ms) (MessageType.text body) env).result
      = HandlerResult.sent (ReplyMsg.textPlain timeout_text) true true := by
  have hms' : ¬ 5000 ≤ ms := Nat.not_le.mpr hms
  simp [on_room_message, hms', hcmd, hnb, hspawn, hwrite, htime, sendReply, hsend]

/-- Witness for C1: a concrete timed-out render job gets the timeout
reply. -/
theorem c1_timeout_reply_witness :
    (on_room_message RoomState.joined (some 0) (MessageType.text (",typ x".toList))
        { spawnOk := true, stdinWriteOk := true, timedOut := true, stdoutText := [],
          stderrReadOk := true, stderrText := [], waitOk := true, exitSuccess := false,
          imageDecode := none, uploadUri := none, sendOk := true }).result
      = HandlerResult.sent (ReplyMsg.textPlain timeout_text) true true :=
  c1_timeout_reply 0 (",typ x".toList) (" x".toList)
    { spawnOk := true, stdinWriteOk := true, timedOut := true, stdoutText := [],
      stderrReadOk := true, stderrText := [], waitOk := true, exitSuccess := false,
      imageDecode := none, uploadUri := none, sendOk := true }
    (by decide) rfl (by decide) rfl rfl rfl rfl

/-- Claim C2, counterexample: a stripped member event whose target is
the bot itself but whose membership state is `join` (not `invite`)
still spawns the join task — the code never inspects the membership
state, refuting the claimed `new state == Invited` condition. -/
theorem c2_counterexample :
    on_stripped_member { state_key := "@bot:example.org", membership := Membership.join }
        "@bot:example.org" = true
    ∧ Membership.join ≠ Membership.invite := by
  exact ⟨by decide, by decide⟩

/-- Claim C2 (amended): the join task is launched if and only if the
event's target identity (`state_key`) equals the bot's own identity;
the membership state carried by the event is not inspected.  In
particular, for an invitation event addressed to a different identity,
no join attempt occurs. -/
theorem c2_join_gate (ev : StrippedRoomMemberEvent) (own : String) :
    (on_stripped_member ev own = true ↔ ev.state_key = own)
    ∧ (ev.state_key ≠ own → on_stripped_member ev own = false) := by
  unfold on_stripped_member
  by_cases h : ev.state_key = own <;> simp [h]

/-- Witness for C2 (amended): an invitation addressed to another user
spawns no join task. -/
theorem c2_join_gate_witness :
    (on_stripped_member { state_key := "@other:example.org", membership := Membership.invite }
        "@bot:example.org" = true ↔ ("@other:example.org" : String) = "@bot:example.org")
    ∧ (("@other:example.org" : String) ≠ "@bot:example.org" →
        on_stripped_member { state_key := "@other:example.org", membership := Membership.invite }
          "@bot:example.org" = false) :=
  c2_join_gate { state_key := "@other:example.org", membership := Membership.invite }
    "@bot:example.org"

/-- Claim C3: persisting a new cursor over an existing session record
replaces only the `sync_token` field; the stored `user_session`
credentials are exactly those of the previous record. -/
theorem c3_persist_preserves_credentials (fs : FullSession) (tok : String) :
    persist_sync_token (some fs) true tok
      = Except.ok (some { user_session := fs.user_session, sync_token := some tok }) := rfl

/-- Fuel monotonicity of the join-retry model: once the loop terminates
within some fuel, any larger fuel yields the same sleep sequence. -/
theorem join_retry_sleeps_mono (n : Nat) :
    ∀ m d l, join_retry_sleeps n d = some l → n ≤ m → join_retry_sleeps m d = some l := by
  induction n with
  | zero => intro m d l h _; simp [join_retry_sleeps] at h
  | succ k ih =>
    intro m d l h hle
    match m, hle with
    | m' + 1, hle =>
      have hk : k ≤ m' := Nat.le_of_succ_le_succ hle
      simp only [join_retry_sleeps] at h ⊢
      by_cases hc : 3600 ≤ d * 2
      · simpa [hc] using h
      · simp only [if_neg hc] at h ⊢
        cases hrec : join_retry_sleeps k (d * 2) with
        | none => rw [hrec] at h; exact absurd h (by simp)
        | some l' =>
          rw [hrec] at h
          rw [ih m' (d * 2) l' hrec hk]
          exact h

/-- Claim C4: under permanent join failure the retry task terminates,
sleeping exactly 2, 4, 8, …, 2048 seconds (each delay double the
previous one), and stops — reporting the failure, with no further join
attempts — when the doubled delay 2048·2 = 4096 reaches the 3600-second
bound. -/
theorem c4_retry_backoff (fuel : Nat) (h : 11 ≤ fuel) :
    join_retry_sleeps fuel 2
      = some [2, 4, 8, 16, 32, 64, 128, 256, 512, 1024, 2048]
    ∧ List.Chain' (fun a b => b = 2 * a) [2, 4, 8, 16, 32, 64, 128, 256, 512, 1024, 2048]
    ∧ 3600 ≤ 2048 * 2 := by
  refine ⟨?_, by simp [List.chain'_cons], by decide⟩
  exact join_retry_sleeps_mono 11 fuel 2 _ (by decide) h

/-- Witness for C4 at the minimal sufficient fuel. -/
theorem c4_retry_backoff_witness :
    join_retry_sleeps 11 2
      = some [2, 4, 8, 16, 32, 64, 128, 256, 512, 1024, 2048]
    ∧ List.Chain' (fun a b => b = 2 * a) [2, 4, 8, 16, 32, 64, 128, 256, 512, 1024, 2048]
    ∧ 3600 ≤ 2048 * 2 :=
  c4_retry_backoff 11 (by decide)

/-- Claim C5: a text message whose origin timestamp is at least 5
seconds (5000 ms) in the past at processing time produces no reply —
and no compiler invocation — regardless of room state, body content and
environment. -/
theorem c5_stale_ignored (state : RoomState) (ms : Nat) (msg : MessageType) (env : RenderEnv)
    (h : 5000 ≤ ms) :
    on_room_message state (some ms) msg env = ⟨HandlerResult.noReply, none⟩ := by
  by_cases hs : state = RoomState.joined
  · subst hs; simp [on_room_message, h]
  · simp [on_room_message, hs]

/-- Witness for C5: a 6-second-old command message is ignored. -/
theorem c5_stale_ignored_witness :
    on_room_message RoomState.joined (some 6000) (MessageType.text (",typ x".toList))
        { spawnOk := true, stdinWriteOk := true, timedOut := false, stdoutText := [],
          stderrReadOk := true, stderrText := [], waitOk := true, exitSuccess := true,
          imageDecode := none, uploadUri := none, sendOk := true }
      = ⟨HandlerResult.noReply, none⟩ :=
  c5_stale_ignored RoomState.joined 6000 (MessageType.text (",typ x".toList))
    { spawnOk := true, stdinWriteOk := true, timedOut := false, stdoutText := [],
      stderrReadOk := true, stderrText := [], waitOk := true, exitSuccess := true,
      imageDecode := none, uploadUri := none, sendOk := true }
    (by decide)

/-- `encodeSafe` maps each character independently, so it distributes
over concatenation. -/
theorem encodeSafe_append (a b : List Char) :
    encodeSafe (a ++ b) = encodeSafe a ++ encodeSafe b := by
  induction a with
  | nil => rfl
  | cons c cs ih => simp [encodeSafe, ih]

/-- A text occurring in `b` occurs in `c ++ b`. -/
theorem occursIn_append_left (a b c : List Char) (h : occursIn a b) :
    occursIn a (c ++ b) := by
  obtain ⟨s, t, rfl⟩ := h
  exact ⟨c ++ s, t, by simp⟩

/-- Wrapping a text preserves occurrences inside it. -/
theorem occursIn_wrap (a b p q : List Char) (h : occursIn a b) :
    occursIn a (p ++ b ++ q) := by
  obtain ⟨s, t, rfl⟩ := h
  exact ⟨p ++ s, t ++ q, by simp⟩

/-- Escaping preserves occurrences: if `a` occurs in `b`, the escaped
`a` occurs in the escaped `b`. -/
theorem occursIn_encodeSafe (a b : List Char) (h : occursIn a b) :
    occursIn (encodeSafe a) (encodeSafe b) := by
  obtain ⟨s, t, rfl⟩ := h
  exact ⟨encodeSafe s, encodeSafe t, by simp [encodeSafe_append]⟩

/-- Claim C6: when the compiler exits with non-zero status, the reply is
the formatted-error variant whose plain-text form is the collected
stdout-then-stderr text — so any diagnostic text `e` written to stderr
occurs in it verbatim — and whose HTML form is the HTML-escaped
collected text wrapped in the monospace block, in which the HTML-escaped
version of `e` occurs. -/
theorem c6_compiler_error_reply (ms : Nat) (body content e : List Char) (env : RenderEnv)
    (hms : ms < 5000) (hcmd : stripTyp body = some content) (hnb : isBlank content = false)
    (hspawn : env.spawnOk = true) (hwrite : env.stdinWriteOk = true)
    (htime : env.timedOut = false) (herr : env.stderrReadOk = true) (hwait : env.waitOk = true)
    (hexit : env.exitSuccess = false) (hsend : env.sendOk = true)
    (hsub : occursIn e env.stderrText) :
    (on_room_message RoomState.joined (some ms) (MessageType.text body) env).result
      = HandlerResult.sent
          (ReplyMsg.textHtml (env.stdoutText ++ env.stderrText)
            (pre_open ++ encodeSafe (env.stdoutText ++ env.stderrText) ++ pre_close))
          true true
    ∧ occursIn e (env.stdoutText ++ env.stderrText)
    ∧ occursIn (encodeSafe e)
        (pre_open ++ encodeSafe (env.stdoutText ++ env.stderrText) ++ pre_close) := by
  refine ⟨?_, occursIn_append_left e env.stderrText env.stdoutText hsub, ?_⟩
  · have hms' : ¬ 5000 ≤ ms := Nat.not_le.mpr hms
    simp [on_room_message, hms', hcmd, hnb, hspawn, hwrite, htime, herr, hwait, hexit,
      sendReply, hsend]
  · exact occursIn_wrap (encodeSafe e) (encodeSafe (env.stdoutText ++ env.stderrText))
      pre_open pre_close
      (occursIn_encodeSafe e (env.stdoutText ++ env.stderrText)
        (occursIn_append_left e env.stderrText env.stdoutText hsub))

/-- Witness for C6: stderr text `"error: X"` with empty stdout yields
the formatted-error reply containing it and its escaped form. -/
theorem c6_compiler_error_reply_witness :
    (on_room_message RoomState.joined (some 0) (MessageType.text (",typ x".toList))
        { spawnOk := true, stdinWriteOk := true, timedOut := false, stdoutText := [],
          stderrReadOk := true, stderrText := "error: X".toList, waitOk := true,
          exitSuccess := false, imageDecode := none, uploadUri := none, sendOk := true }).result
      = HandlerResult.sent
          (ReplyMsg.textHtml ("error: X".toList)
            (pre_open ++ encodeSafe ("error: X".toList) ++ pre_close)) true true
    ∧ occursIn ("error: X".toList) ("error: X".toList)
    ∧ occursIn (encodeSafe ("error: X".toList))
        (pre_open ++ encodeSafe ("error: X".toList) ++ pre_close) :=
  c6_compiler_error_reply 0 (",typ x".toList) (" x".toList) ("error: X".toList)
    { spawnOk := true, stdinWriteOk := true, timedOut := false, stdoutText := [],
      stderrReadOk := true, stderrText := "error: X".toList, waitOk := true,
      exitSuccess := false, imageDecode := none, uploadUri := none, sendOk := true }
    (by decide) rfl (by decide) rfl rfl rfl rfl rfl rfl rfl ⟨[], [], by simp⟩

/-- Claim C7: if persisting the new cursor fails for a batch — in
particular when the existing session record cannot be read or parsed —
the error is surfaced and the whole streaming sync loop aborts with it,
whatever further long-poll responses would have followed. -/
theorem c7_persist_failure_aborts (file : Option FullSession) (writeOk : String → Bool)
    (tok : String) (hs : List HandlerResult)
    (rest : List (SyncAttempt × List HandlerResult)) (e : PersistError)
    (hfail : persist_sync_token file (writeOk tok) tok = Except.error e) :
    sync_loop file writeOk ((SyncAttempt.ok tok, hs) :: rest)
      = Except.error (SyncError.persist e)
    ∧ persist_sync_token none (writeOk tok) tok = Except.error PersistError.readOrParse := by
  refine ⟨?_, rfl⟩
  simp only [sync_loop]
  rw [hfail]

/-- Witness for C7: an unreadable record makes the loop abort before the
remaining batches. -/
theorem c7_persist_failure_aborts_witness :
    sync_loop none (fun _ => true) ((SyncAttempt.ok "tok1", []) :: [(SyncAttempt.ok "tok2", [])])
      = Except.error (SyncError.persist PersistError.readOrParse)
    ∧ persist_sync_token none true "tok1" = Except.error PersistError.readOrParse :=
  c7_persist_failure_aborts none (fun _ => true) "tok1" [] [(SyncAttempt.ok "tok2", [])]
    PersistError.readOrParse rfl

/-- Claim C8: a bad homeserver address/URL at client construction makes
the process exit with code 1 after a diagnostic message, on both the
session-restore path (error propagated out of `main`) and the
fresh-login path (explicit `exit(1)` in `build_client`). -/
theorem c8_bad_url_exits_one (sessionExists : Bool) (rest : ProcessOutcome) :
    main_startup sessionExists (Except.error ClientBuildError.url) rest
      = ProcessOutcome.exited 1 true := by
  cases sessionExists <;> rfl

/-- The streaming loop's outcome depends only on the long-poll results
and cursor persistence, never on the dispatched handlers' outcomes. -/
theorem sync_loop_ignores_handlers (bs : List (SyncAttempt × List HandlerResult)) :
    ∀ bs' file writeOk, bs.map Prod.fst = bs'.map Prod.fst →
      sync_loop file writeOk bs = sync_loop file writeOk bs' := by
  induction bs with
  | nil =>
    intro bs' file w h
    cases bs' with
    | nil => rfl
    | cons b t => simp at h
  | cons b t ih =>
    intro bs' file w h
    cases bs' with
    | nil => simp at h
    | cons b' t' =>
      obtain ⟨a, hs⟩ := b
      obtain ⟨a', hs'⟩ := b'
      simp only [List.map_cons, List.cons.injEq] at h
      obtain ⟨h1, h2⟩ := h
      subst h1
      cases a with
      | err => rfl
      | ok tok =>
        simp only [sync_loop]
        cases hp : persist_sync_token file (w tok) tok with
        | error e => rfl
        | ok f2 => exact ih t' f2 w h2

/-- Claim C9: each per-message render error — spawn failure, pipe-write
failure, malformed image on declared success, send failure — terminates
only that handler invocation (the result is a panic of that invocation,
no reply is produced by it), and the streaming sync loop's outcome is
entirely independent of the handler outcomes, so such errors never
propagate to or terminate the SyncEngine loop. -/
theorem c9_render_errors_isolated (file : Option FullSession) (writeOk : String → Bool)
    (bs bs' : List (SyncAttempt × List HandlerResult)) (ms : Nat)
    (body content : List Char) (env : RenderEnv)
    (hsame : bs.map Prod.fst = bs'.map Prod.fst)
    (hms : ms < 5000) (hcmd : stripTyp body = some content) (hnb : isBlank content = false) :
    (env.spawnOk = false →
      (on_room_message RoomState.joined (some ms) (MessageType.text body) env).result
        = HandlerResult.panicked PanicSite.spawn)
    ∧ (env.spawnOk = true → env.stdinWriteOk = false →
      (on_room_message RoomState.joined (some ms) (MessageType.text body) env).result
        = HandlerResult.panicked PanicSite.stdinWrite)
    ∧ (env.spawnOk = true → env.stdinWriteOk = true → env.timedOut = false →
        env.stderrReadOk = true → env.waitOk = true → env.exitSuccess = true →
        env.imageDecode = none →
      (on_room_message RoomState.joined (some ms) (MessageType.text body) env).result
        = HandlerResult.panicked PanicSite.imageDecode)
    ∧ (env.sendOk = false →
      ∃ site, (on_room_message RoomState.joined (some ms) (MessageType.text body) env).result
        = HandlerResult.panicked site)
    ∧ sync_loop file writeOk bs = sync_loop file writeOk bs' := by
  have hms' : ¬ 5000 ≤ ms := Nat.not_le.mpr hms
  refine ⟨?_, ?_, ?_, ?_, sync_loop_ignores_handlers bs bs' file writeOk hsame⟩
  · intro h1
    simp [on_room_message, hms', hcmd, hnb, h1]
  · intro h1 h2
    simp [on_room_message, hms', hcmd, hnb, h1, h2]
  · intro h1 h2 h3 h4 h5 h6 h7
    simp [on_room_message, hms', hcmd, hnb, h1, h2, h3, h4, h5, h6, h7]
  · intro hsend
    cases h1 : env.spawnOk with
    | false => exact ⟨PanicSite.spawn, by simp [on_room_message, hms', hcmd, hnb, h1]⟩
    | true =>
      cases h2 : env.stdinWriteOk with
      | false =>
        exact ⟨PanicSite.stdinWrite, by simp [on_room_message, hms', hcmd, hnb, h1, h2]⟩
      | true =>
        cases h3 : env.timedOut with
        | true =>
          exact ⟨PanicSite.send,
            by simp [on_room_message, hms', hcmd, hnb, h1, h2, h3, sendReply, hsend]⟩
        | false =>
          cases h4 : env.stderrReadOk with
          | false =>
            exact ⟨PanicSite.stderrRead,
              by simp [on_room_message, hms', hcmd, hnb, h1, h2, h3, h4]⟩
          | true =>
            cases h5 : env.waitOk with
            | false =>
              exact ⟨PanicSite.wait,
                by simp [on_room_message, hms', hcmd, hnb, h1, h2, h3, h4, h5]⟩
            | true =>
              cases h6 : env.exitSuccess with
              | false =>
                exact ⟨PanicSite.send,
                  by simp [on_room_message, hms', hcmd, hnb, h1, h2, h3, h4, h5, h6,
                    sendReply, hsend]⟩
              | true =>
                cases h7 : env.imageDecode with
                | none =>
                  exact ⟨PanicSite.imageDecode,
                    by simp [on_room_message, hms', hcmd, hnb, h1, h2, h3, h4, h5, h6, h7]⟩
                | some wh =>
                  cases h8 : env.uploadUri with
                  | none =>
                    exact ⟨PanicSite.upload,
                      by simp [on_room_message, hms', hcmd, hnb, h1, h2, h3, h4, h5, h6,
                        h7, h8]⟩
                  | some uri =>
                    exact ⟨PanicSite.send,
                      by simp [on_room_message, hms', hcmd, hnb, h1, h2, h3, h4, h5, h6,
                        h7, h8, sendReply, hsend]⟩

/-- Witness for C9: a spawn failure panics only that invocation, and the
loop outcome is the same whether or not that panic is among a batch's
handler outcomes. -/
theorem c9_render_errors_isolated_witness :
    (on_room_message RoomState.joined (some 0) (MessageType.text (",typ x".toList))
        { spawnOk := false, stdinWriteOk := true, timedOut := false, stdoutText := [],
          stderrReadOk := true, stderrText := [], waitOk := true, exitSuccess := true,
          imageDecode := none, uploadUri := none, sendOk := true }).result
      = HandlerResult.panicked PanicSite.spawn
    ∧ sync_loop none (fun _ => true)
        [(SyncAttempt.ok "tok", [HandlerResult.panicked PanicSite.spawn])]
      = sync_loop none (fun _ => true) [(SyncAttempt.ok "tok", [])] := by
  have h := c9_render_errors_isolated none (fun _ => true)
    [(SyncAttempt.ok "tok", [HandlerResult.panicked PanicSite.spawn])]
    [(SyncAttempt.ok "tok", [])] 0 (",typ x".toList) (" x".toList)
    { spawnOk := false, stdinWriteOk := true, timedOut := false, stdoutText := [],
      stderrReadOk := true, stderrText := [], waitOk := true, exitSuccess := true,
      imageDecode := none, uploadUri := none, sendOk := true }
    rfl (by decide) rfl (by decide)
  exact ⟨h.1 rfl, h.2.2.2.2⟩

/-- Every non-blank command, whatever the environment does, records the
compiler-stdin payload built from exactly the text after `,typ`. -/
theorem on_room_message_payload (ms : Nat) (body content : List Char) (env : RenderEnv)
    (hms : ms < 5000) (hcmd : stripTyp body = some content) (hnb : isBlank content = false)
    (hspawn : env.spawnOk = true) :
    (on_room_message RoomState.joined (some ms) (MessageType.text body) env).stdinPayload
      = some (render_input content) := by
  have hms' : ¬ 5000 ≤ ms := Nat.not_le.mpr hms
  cases h2 : env.stdinWriteOk <;>
    cases h3 : env.timedOut <;>
      cases h4 : env.stderrReadOk <;>
        cases h5 : env.waitOk <;>
          cases h6 : env.exitSuccess <;>
            cases h7 : env.imageDecode <;>
              cases h8 : env.uploadUri <;>
                simp [on_room_message, hms', hcmd, hnb, hspawn, h2, h3, h4, h5, h6, h7, h8,
                  sendReply]

/-- Claim C10: the command gate matches the four characters `,typ` as a
raw prefix with no separator, the command text is exactly the remainder
(`,typX` yields command `X`, whose payload reaches the compiler), a
blank remainder yields the instructional reply, and a non-blank
remainder never does. -/
theorem c10_raw_gate (rest : List Char) (env : RenderEnv)
    (hspawn : env.spawnOk = true) (hsend : env.sendOk = true) :
    stripTyp (',' :: 't' :: 'y' :: 'p' :: rest) = some rest
    ∧ stripTyp (",typX".toList) = some ['X']
    ∧ (on_room_message RoomState.joined (some 0)
          (MessageType.text (",typX".toList)) env).stdinPayload
        = some (render_input ['X'])
    ∧ (isBlank rest = true →
        (on_room_message RoomState.joined (some 0)
            (MessageType.text (',' :: 't' :: 'y' :: 'p' :: rest)) env).result
          = HandlerResult.sent (ReplyMsg.textPlain need_text) true true)
    ∧ (isBlank rest = false →
        (on_room_message RoomState.joined (some 0)
            (MessageType.text (',' :: 't' :: 'y' :: 'p' :: rest)) env).result
          ≠ HandlerResult.sent (ReplyMsg.textPlain need_text) true true) := by
  refine ⟨rfl, rfl, ?_, ?_, ?_⟩
  · exact on_room_message_payload 0 (",typX".toList) ['X'] env (by decide) rfl (by decide) hspawn
  · intro hb
    simp [on_room_message, stripTyp, hb, sendReply, hsend]
  · intro hb
    cases h2 : env.stdinWriteOk <;>
      cases h3 : env.timedOut <;>
        cases h4 : env.stderrReadOk <;>
          cases h5 : env.waitOk <;>
            cases h6 : env.exitSuccess <;>
              cases h7 : env.imageDecode <;>
                cases h8 : env.uploadUri <;>
                  simp [on_room_message, stripTyp, hb, hspawn, h2, h3, h4, h5, h6, h7, h8,
                    sendReply, hsend, need_text, timeout_text]

/-- Witness for C10: a whitespace-only remainder gets the instructional
reply; `,typX` is a command with source `X`. -/
theorem c10_raw_gate_witness :
    stripTyp (',' :: 't' :: 'y' :: 'p' :: [' ']) = some [' ']
    ∧ stripTyp (",typX".toList) = some ['X']
    ∧ (on_room_message RoomState.joined (some 0) (MessageType.text (",typX".toList))
          { spawnOk := true, stdinWriteOk := true, timedOut := false, stdoutText := [],
            stderrReadOk := true, stderrText := [], waitOk := true, exitSuccess := true,
            imageDecode := some (1, 1), uploadUri := some [], sendOk := true }).stdinPayload
        = some (render_input ['X'])
    ∧ (isBlank [' '] = true →
        (on_room_message RoomState.joined (some 0)
            (MessageType.text (',' :: 't' :: 'y' :: 'p' :: [' ']))
            { spawnOk := true, stdinWriteOk := true, timedOut := false, stdoutText := [],
              stderrReadOk := true, stderrText := [], waitOk := true, exitSuccess := true,
              imageDecode := some (1, 1), uploadUri := some [], sendOk := true }).result
          = HandlerResult.sent (ReplyMsg.textPlain need_text) true true)
    ∧ (isBlank [' '] = false →
        (on_room_message RoomState.joined (some 0)
            (MessageType.text (',' :: 't' :: 'y' :: 'p' :: [' ']))
            { spawnOk := true, stdinWriteOk := true, timedOut := false, stdoutText := [],
              stderrReadOk := true, stderrText := [], waitOk := true, exitSuccess := true,
              imageDecode := some (1, 1), uploadUri := some [], sendOk := true }).result
          ≠ HandlerResult.sent (ReplyMsg.textPlain need_text) true true) :=
  c10_raw_gate [' ']
    { spawnOk := true, stdinWriteOk := true, timedOut := false, stdoutText := [],
      stderrReadOk := true, stderrText := [], waitOk := true, exitSuccess := true,
      imageDecode := some (1, 1), uploadUri := some [], sendOk := true }
    rfl rfl

end TypitMatrix
